import Mathlib

/-!
Verification of the stdio task worker `docker-examples/workers/python/simple_worker.py`.

The worker reads one JSON task description from standard input, resolves a few
fields with defaults, and prints exactly one JSON result line to standard output;
any exception raised inside `main` is caught by the `__main__` handler, which
prints a FAILED result instead.

The shallow embedding models the value universe of Python's `json` module as the
inductive type `Json` (JSON numbers are modelled as integers; the claims under
study do not involve fractional numbers).  The outcome of `json.load(sys.stdin)`
is taken as the worker's input: `Except.ok v` when stdin parses to the value `v`,
`Except.error e` when the parse raises an exception whose textual description is
`e`.  Each `print(json.dumps(...))` call is recorded as one emitted line, so the
whole process is the pure function `workerStdout : Except String Json → List String`.
-/

/-- A value produced by Python's `json.load`: null, booleans, numbers
(integers in this model), strings, arrays, and string-keyed objects. -/
inductive Json where
  | null
  | bool (b : Bool)
  | num (n : Int)
  | str (s : String)
  | arr (elems : List Json)
  | obj (members : List (String × Json))

/-- Python `d.get(k, default)` on a dict `d` (here: first binding of `k`;
objects coming out of `json.load` have unique keys). -/
def dictGet (kvs : List (String × Json)) (k : String) (d : Json) : Json :=
  match kvs.lookup k with
  | some v => v
  | none => d

/-- The Python type name of a parsed-JSON value, as it appears in
`AttributeError` messages. -/
def pyTypeName : Json → String
  | Json.null => "NoneType"
  | Json.bool _ => "bool"
  | Json.num _ => "int"
  | Json.str _ => "str"
  | Json.arr _ => "list"
  | Json.obj _ => "dict"

/-- `str(e)` for the `AttributeError` raised by `v.get(...)` when `v` is not a
dict: `'typename' object has no attribute 'get'`. -/
def attrGetErr (v : Json) : String :=
  "\x27" ++ pyTypeName v ++ "\x27 object has no attribute \x27get\x27"

/-- Evaluating `v.get(k, d)` in Python: succeeds with the dict lookup when `v`
is a dict, raises `AttributeError` otherwise. -/
def pyGetAttrGet (v : Json) (k : String) (d : Json) : Except String Json :=
  match v with
  | Json.obj kvs => Except.ok (dictGet kvs k d)
  | _ => Except.error (attrGetErr v)

/-- Lowercase hexadecimal digit. -/
def hexDigit (n : Nat) : Char :=
  if n < 10 then Char.ofNat (48 + n) else Char.ofNat (87 + n)

/-- Two lowercase hex digits (for Python `\xXX` escapes). -/
def hex2 (n : Nat) : String :=
  String.singleton (hexDigit (n / 16 % 16)) ++ String.singleton (hexDigit (n % 16))

/-- Four lowercase hex digits (for `\uXXXX` escapes). -/
def hex4 (n : Nat) : String :=
  String.singleton (hexDigit (n / 4096 % 16)) ++ String.singleton (hexDigit (n / 256 % 16)) ++
  String.singleton (hexDigit (n / 16 % 16)) ++ String.singleton (hexDigit (n % 16))

/-- CPython `repr` of one character of a string, given the chosen quote
character.  Exact on ASCII; characters above U+007F are kept as-is, which
matches CPython for printable characters (non-printable non-ASCII code points,
which CPython would escape, are not distinguished by this model and never occur
in the inputs the theorems below evaluate). -/
def pyReprChar (q : Char) (c : Char) : String :=
  if c = '\\' then "\\\\"
  else if c = q then "\\" ++ String.singleton q
  else if c = Char.ofNat 10 then "\\n"
  else if c = Char.ofNat 13 then "\\r"
  else if c = Char.ofNat 9 then "\\t"
  else if c.toNat < 32 || c.toNat == 127 then "\\x" ++ hex2 c.toNat
  else String.singleton c

/-- CPython `repr` of a string: single-quoted, unless the string contains a
single quote but no double quote, in which case it is double-quoted. -/
def pyReprStr (s : String) : String :=
  if s.contains '\x27' && !s.contains '"' then
    "\"" ++ String.join (s.data.map (pyReprChar '"')) ++ "\""
  else
    "\x27" ++ String.join (s.data.map (pyReprChar '\x27')) ++ "\x27"

mutual
/-- CPython `repr` of a parsed-JSON value (`None`/`True`/`False`, decimal
integers, quoted strings, `[...]` lists, `\x7b...\x7d` dicts). -/
def pyRepr : Json → String
  | Json.null => "None"
  | Json.bool b => if b then "True" else "False"
  | Json.num n => toString n
  | Json.str s => pyReprStr s
  | Json.arr xs => "[" ++ String.intercalate ", " (pyReprList xs) ++ "]"
  | Json.obj kvs => "\x7b" ++ String.intercalate ", " (pyReprKVs kvs) ++ "\x7d"

/-- `repr` of each element of a list. -/
def pyReprList : List Json → List String
  | [] => []
  | x :: xs => pyRepr x :: pyReprList xs

/-- `repr(key): repr(value)` for each member of a dict. -/
def pyReprKVs : List (String × Json) → List String
  | [] => []
  | (k, v) :: kvs => (pyReprStr k ++ ": " ++ pyRepr v) :: pyReprKVs kvs
end

/-- CPython `str` of a parsed-JSON value, as used by f-string interpolation:
identical to `repr` except on strings, which are inserted verbatim. -/
def pyStr (v : Json) : String :=
  match v with
  | Json.str s => s
  | _ => pyRepr v

/-- One character of a JSON string as serialized by `json.dumps` with its
defaults (`ensure_ascii=True`): short escapes for quote, backslash and the
usual controls, `\uXXXX` for other controls and all non-ASCII code points
(surrogate pairs above U+FFFF). -/
def jsonEscapeChar (c : Char) : String :=
  if c = '"' then "\\\""
  else if c = '\\' then "\\\\"
  else if c = Char.ofNat 10 then "\\n"
  else if c = Char.ofNat 13 then "\\r"
  else if c = Char.ofNat 9 then "\\t"
  else if c = Char.ofNat 8 then "\\b"
  else if c = Char.ofNat 12 then "\\f"
  else if c.toNat < 32 then "\\u" ++ hex4 c.toNat
  else if c.toNat ≤ 126 then String.singleton c
  else if c.toNat ≤ 65535 then "\\u" ++ hex4 c.toNat
  else
    "\\u" ++ hex4 (55296 + (c.toNat - 65536) / 1024) ++
    "\\u" ++ hex4 (56320 + (c.toNat - 65536) % 1024)

/-- A JSON string literal as serialized by `json.dumps`. -/
def dumpStr (s : String) : String :=
  "\"" ++ String.join (s.data.map jsonEscapeChar) ++ "\""

mutual
/-- `json.dumps` with its default separators (`", "` and `": "`). -/
def dumps : Json → String
  | Json.null => "null"
  | Json.bool b => if b then "true" else "false"
  | Json.num n => toString n
  | Json.str s => dumpStr s
  | Json.arr xs => "[" ++ String.intercalate ", " (dumpsList xs) ++ "]"
  | Json.obj kvs => "\x7b" ++ String.intercalate ", " (dumpsKVs kvs) ++ "\x7d"

/-- Serialization of each element of an array. -/
def dumpsList : List Json → List String
  | [] => []
  | x :: xs => dumps x :: dumpsList xs

/-- `"key": value` serialization of each member of an object. -/
def dumpsKVs : List (String × Json) → List String
  | [] => []
  | (k, v) :: kvs => (dumpStr k ++ ": " ++ dumps v) :: dumpsKVs kvs
end

/-- The five local values `main` resolves from the task (source lines 15-21):
`input_data`, `name`, `task_id`, `workflow_id`, `task_type`. -/
structure Resolved where
  input_data : Json
  name : Json
  task_id : Json
  workflow_id : Json
  task_type : Json

/-- Lines 15-21 of `main`, in source order; each `.get` may raise
(`Except.error`) when its receiver is not a dict. -/
def resolveTask (task : Json) : Except String Resolved :=
  (pyGetAttrGet task "inputData" (Json.obj [])).bind fun input_data =>
  (pyGetAttrGet input_data "name" (Json.str "World")).bind fun nm =>
  (pyGetAttrGet task "taskId" (Json.str "unknown")).bind fun task_id =>
  (pyGetAttrGet task "workflowInstanceId" (Json.str "unknown")).bind fun workflow_id =>
  (pyGetAttrGet task "taskType" (Json.str "unknown")).bind fun task_type =>
  Except.ok ⟨input_data, nm, task_id, workflow_id, task_type⟩

/-- The `result` dict built on the success path of `main` (lines 24-39),
including the f-string interpolations of the resolved values. -/
def successResult (r : Resolved) : Json :=
  Json.obj [
    ("status", Json.str "COMPLETED"),
    ("output", Json.obj [
      ("message", Json.str ("Hello, " ++ pyStr r.name ++ "!")),
      ("taskId", r.task_id),
      ("workflowId", r.workflow_id)]),
    ("logs", Json.arr [
      Json.str ("Processing task " ++ pyStr r.task_id ++ " of type " ++ pyStr r.task_type),
      Json.str ("Workflow: " ++ pyStr r.workflow_id),
      Json.str ("Generated greeting for " ++ pyStr r.name)])]

/-- The `result` dict built by the `except` handler (lines 47-52) from the
caught exception's textual description. -/
def failureResult (e : String) : Json :=
  Json.obj [
    ("status", Json.str "FAILED"),
    ("reason", Json.str e),
    ("logs", Json.arr [Json.str ("Error processing task: " ++ e)])]

/-- The body of `main`: the parse outcome of `json.load(sys.stdin)` is the
input; on success the list of JSON values printed (exactly one), on an
exception the propagated error description. -/
def workerMain (parsed : Except String Json) : Except String (List Json) :=
  parsed.bind fun task =>
  (resolveTask task).bind fun r =>
  Except.ok [successResult r]

/-- The `__main__` block: run `main` under `try`, printing the failure result
when it raises.  Returns the list of JSON values printed to stdout. -/
def runWorker (parsed : Except String Json) : List Json :=
  match workerMain parsed with
  | Except.ok printed => printed
  | Except.error e => [failureResult e]

/-- The bytes the worker writes to standard output: each `print(json.dumps(r))`
contributes the serialized value followed by a newline. -/
def workerStdout (parsed : Except String Json) : List String :=
  (runWorker parsed).map (fun line => dumps line ++ "\n")

/-- The process exit status: the script never calls `sys.exit`, and both the
success path and the `except` handler fall through to normal termination, so
every run exits with status 0. -/
def workerExitCode (_ : Except String Json) : Nat := 0

/-- Field access on a JSON object (`none` on non-objects and absent keys). -/
def Json.getField : Json → String → Option Json
  | Json.obj kvs, k => kvs.lookup k
  | _, _ => none

/-- Whether a JSON value is an object. -/
def Json.isObj : Json → Bool
  | Json.obj _ => true
  | _ => false

/-- The keys of a JSON object, in order. -/
def Json.objKeys : Json → List String
  | Json.obj kvs => kvs.map Prod.fst
  | _ => []

/-- A field of the `output` object of a result. -/
def outField (r : Json) (k : String) : Option Json :=
  (r.getField "output").bind fun o => Json.getField o k

/-! ### Computation lemmas for the worker pipeline -/

lemma pyGetAttrGet_obj (kvs : List (String × Json)) (k : String) (d : Json) :
    pyGetAttrGet (Json.obj kvs) k d = Except.ok (dictGet kvs k d) := rfl

lemma pyGetAttrGet_not_obj (v : Json) (k : String) (d : Json) (h : v.isObj = false) :
    pyGetAttrGet v k d = Except.error (attrGetErr v) := by
  cases v <;> simp_all [pyGetAttrGet, Json.isObj]

lemma dictGet_some (kvs : List (String × Json)) (k : String) (d v : Json)
    (h : kvs.lookup k = some v) : dictGet kvs k d = v := by
  simp [dictGet, h]

lemma dictGet_none (kvs : List (String × Json)) (k : String) (d : Json)
    (h : kvs.lookup k = none) : dictGet kvs k d = d := by
  simp [dictGet, h]

lemma resolveTask_obj (kvs idkvs : List (String × Json))
    (hid : dictGet kvs "inputData" (Json.obj []) = Json.obj idkvs) :
    resolveTask (Json.obj kvs) = Except.ok
      ⟨Json.obj idkvs, dictGet idkvs "name" (Json.str "World"),
        dictGet kvs "taskId" (Json.str "unknown"),
        dictGet kvs "workflowInstanceId" (Json.str "unknown"),
        dictGet kvs "taskType" (Json.str "unknown")⟩ := by
  simp [resolveTask, pyGetAttrGet_obj, Except.bind, hid]

lemma resolveTask_bad_input_data (kvs : List (String × Json))
    (h : (dictGet kvs "inputData" (Json.obj [])).isObj = false) :
    resolveTask (Json.obj kvs) =
      Except.error (attrGetErr (dictGet kvs "inputData" (Json.obj []))) := by
  simp [resolveTask, pyGetAttrGet_obj, Except.bind,
    pyGetAttrGet_not_obj _ "name" (Json.str "World") h]

lemma resolveTask_obj_inv (kvs : List (String × Json)) (res : Resolved)
    (h : resolveTask (Json.obj kvs) = Except.ok res) :
    res.input_data = dictGet kvs "inputData" (Json.obj []) ∧
    pyGetAttrGet res.input_data "name" (Json.str "World") = Except.ok res.name ∧
    res.task_id = dictGet kvs "taskId" (Json.str "unknown") ∧
    res.workflow_id = dictGet kvs "workflowInstanceId" (Json.str "unknown") ∧
    res.task_type = dictGet kvs "taskType" (Json.str "unknown") := by
  rw [resolveTask] at h
  rw [pyGetAttrGet_obj] at h
  cases hnm : pyGetAttrGet (dictGet kvs "inputData" (Json.obj [])) "name" (Json.str "World") with
  | error e =>
    rw [show Except.bind (Except.ok (dictGet kvs "inputData" (Json.obj []))) = fun f => f (dictGet kvs "inputData" (Json.obj [])) from rfl] at h
    simp only [hnm, Except.bind] at h
    exact Except.noConfusion h
  | ok nm =>
    rw [show Except.bind (Except.ok (dictGet kvs "inputData" (Json.obj []))) = fun f => f (dictGet kvs "inputData" (Json.obj [])) from rfl] at h
    simp only [hnm, Except.bind, pyGetAttrGet_obj, Except.ok.injEq] at h
    subst h
    exact ⟨rfl, hnm, rfl, rfl, rfl⟩

lemma runWorker_error (e : String) : runWorker (Except.error e) = [failureResult e] := rfl

lemma runWorker_ok_of_resolve (t : Json) (res : Resolved)
    (h : resolveTask t = Except.ok res) :
    runWorker (Except.ok t) = [successResult res] := by
  simp [runWorker, workerMain, Except.bind, h]

lemma runWorker_ok_of_resolve_error (t : Json) (e : String)
    (h : resolveTask t = Except.error e) :
    runWorker (Except.ok t) = [failureResult e] := by
  simp [runWorker, workerMain, Except.bind, h]

lemma runWorker_not_obj (t : Json) (h : t.isObj = false) :
    runWorker (Except.ok t) = [failureResult (attrGetErr t)] := by
  apply runWorker_ok_of_resolve_error
  cases t <;> simp_all [resolveTask, pyGetAttrGet, Json.isObj, Except.bind]

lemma runWorker_shape (p : Except String Json) :
    (∃ task res, p = Except.ok task ∧ resolveTask task = Except.ok res ∧
      runWorker p = [successResult res]) ∨
    (∃ e, runWorker p = [failureResult e]) := by
  cases p with
  | error e => exact Or.inr ⟨e, runWorker_error e⟩
  | ok task =>
    cases h : resolveTask task with
    | error e => exact Or.inr ⟨e, runWorker_ok_of_resolve_error task e h⟩
    | ok res => exact Or.inl ⟨task, res, rfl, h, runWorker_ok_of_resolve task res h⟩

lemma successResult_status (r : Resolved) :
    (successResult r).getField "status" = some (Json.str "COMPLETED") := rfl

lemma successResult_message (r : Resolved) :
    outField (successResult r) "message" =
      some (Json.str ("Hello, " ++ pyStr r.name ++ "!")) := rfl

lemma successResult_taskId (r : Resolved) :
    outField (successResult r) "taskId" = some r.task_id := rfl

lemma successResult_workflowId (r : Resolved) :
    outField (successResult r) "workflowId" = some r.workflow_id := rfl

lemma successResult_output_keys (r : Resolved) :
    ∃ o, (successResult r).getField "output" = some o ∧
      o.objKeys = ["message", "taskId", "workflowId"] ∧
      o.getField "workflowInstanceId" = none :=
  ⟨_, rfl, rfl, rfl⟩

lemma successResult_logs (r : Resolved) :
    (successResult r).getField "logs" = some (Json.arr [
      Json.str ("Processing task " ++ pyStr r.task_id ++ " of type " ++ pyStr r.task_type),
      Json.str ("Workflow: " ++ pyStr r.workflow_id),
      Json.str ("Generated greeting for " ++ pyStr r.name)]) := rfl

lemma failureResult_status (e : String) :
    (failureResult e).getField "status" = some (Json.str "FAILED") := rfl

lemma failureResult_reason (e : String) :
    (failureResult e).getField "reason" = some (Json.str e) := rfl

lemma failureResult_logs (e : String) :
    (failureResult e).getField "logs" =
      some (Json.arr [Json.str ("Error processing task: " ++ e)]) := rfl

/-! ### Claims -/

/-- C1: for every stdin that parses to a JSON object whose `inputData` field is
an object containing a string value for key `name`, the worker emits a result
with status `COMPLETED` whose `output.message` is the concatenation
`"Hello, " ++ name ++ "!"` (for `name = "Alice"`: exactly `"Hello, Alice!"`,
as the witness below checks). -/
theorem greeting_uses_input_name (kvs idkvs : List (String × Json)) (nm : String)
    (h1 : kvs.lookup "inputData" = some (Json.obj idkvs))
    (h2 : idkvs.lookup "name" = some (Json.str nm)) :
    ∃ r, runWorker (Except.ok (Json.obj kvs)) = [r] ∧
      r.getField "status" = some (Json.str "COMPLETED") ∧
      outField r "message" = some (Json.str ("Hello, " ++ nm ++ "!")) := by
  have hid : dictGet kvs "inputData" (Json.obj []) = Json.obj idkvs :=
    dictGet_some _ _ _ _ h1
  have hres := resolveTask_obj kvs idkvs hid
  have hn : dictGet idkvs "name" (Json.str "World") = Json.str nm :=
    dictGet_some _ _ _ _ h2
  rw [hn] at hres
  exact ⟨_, runWorker_ok_of_resolve _ _ hres, successResult_status _,
    successResult_message _⟩

theorem greeting_uses_input_name_wit :
    ∃ r, runWorker (Except.ok (Json.obj
        [("inputData", Json.obj [("name", Json.str "Alice")])])) = [r] ∧
      r.getField "status" = some (Json.str "COMPLETED") ∧
      outField r "message" = some (Json.str "Hello, Alice!") :=
  greeting_uses_input_name [("inputData", Json.obj [("name", Json.str "Alice")])]
    [("name", Json.str "Alice")] "Alice" rfl rfl

/-- C2: each absent field is defaulted before the result is computed —
`inputData` to the empty dict (which also defaults `name` to `"World"`),
and, on any successful resolution, `taskId`, `workflowInstanceId`, `taskType`
to `"unknown"` and a missing `inputData.name` to `"World"`; in particular the
input `\x7b\x7d` yields the COMPLETED result with output message
`"Hello, World!"`, taskId `"unknown"` and workflowId `"unknown"`. -/
theorem absent_fields_are_defaulted :
    (∀ kvs : List (String × Json), kvs.lookup "inputData" = none →
      resolveTask (Json.obj kvs) = Except.ok
        ⟨Json.obj [], Json.str "World",
          dictGet kvs "taskId" (Json.str "unknown"),
          dictGet kvs "workflowInstanceId" (Json.str "unknown"),
          dictGet kvs "taskType" (Json.str "unknown")⟩) ∧
    (∀ kvs res, resolveTask (Json.obj kvs) = Except.ok res →
      (kvs.lookup "taskId" = none → res.task_id = Json.str "unknown") ∧
      (kvs.lookup "workflowInstanceId" = none → res.workflow_id = Json.str "unknown") ∧
      (kvs.lookup "taskType" = none → res.task_type = Json.str "unknown") ∧
      (∀ idkvs, res.input_data = Json.obj idkvs → idkvs.lookup "name" = none →
        res.name = Json.str "World")) ∧
    runWorker (Except.ok (Json.obj [])) =
      [Json.obj [("status", Json.str "COMPLETED"),
        ("output", Json.obj [
          ("message", Json.str "Hello, World!"),
          ("taskId", Json.str "unknown"),
          ("workflowId", Json.str "unknown")]),
        ("logs", Json.arr [
          Json.str "Processing task unknown of type unknown",
          Json.str "Workflow: unknown",
          Json.str "Generated greeting for World"])]] := by
  refine ⟨?_, ?_, ?_⟩
  · intro kvs h
    have hid : dictGet kvs "inputData" (Json.obj []) = Json.obj [] :=
      dictGet_none _ _ _ h
    have hr := resolveTask_obj kvs [] hid
    simpa [dictGet] using hr
  · intro kvs res h
    obtain ⟨hin, hnm, hti, hwf, htt⟩ := resolveTask_obj_inv kvs res h
    refine ⟨?_, ?_, ?_, ?_⟩
    · intro ha; rw [hti]; exact dictGet_none _ _ _ ha
    · intro ha; rw [hwf]; exact dictGet_none _ _ _ ha
    · intro ha; rw [htt]; exact dictGet_none _ _ _ ha
    · intro idkvs hobj ha
      rw [hobj, pyGetAttrGet_obj, dictGet_none _ _ _ ha] at hnm
      exact (Except.ok.inj hnm).symm
  · rfl

theorem absent_fields_are_defaulted_wit :
    resolveTask (Json.obj [("taskId", Json.str "t9")]) = Except.ok
      ⟨Json.obj [], Json.str "World", Json.str "t9",
        Json.str "unknown", Json.str "unknown"⟩ := by
  have h := absent_fields_are_defaulted.1 [("taskId", Json.str "t9")] rfl
  exact h

/-- C3: on the success path the output's `taskId` equals the input `taskId`
(defaulting to `"unknown"` when absent), the input `workflowInstanceId` value
appears in the output under the renamed key `workflowId` (defaulting to
`"unknown"`), and the output object's keys are exactly
`message`, `taskId`, `workflowId` — the key `workflowInstanceId` never occurs. -/
theorem output_renames_workflow_instance_id (kvs idkvs : List (String × Json))
    (hid : dictGet kvs "inputData" (Json.obj []) = Json.obj idkvs) :
    ∃ r, runWorker (Except.ok (Json.obj kvs)) = [r] ∧
      (∀ v, kvs.lookup "taskId" = some v → outField r "taskId" = some v) ∧
      (kvs.lookup "taskId" = none → outField r "taskId" = some (Json.str "unknown")) ∧
      (∀ v, kvs.lookup "workflowInstanceId" = some v →
        outField r "workflowId" = some v) ∧
      (kvs.lookup "workflowInstanceId" = none →
        outField r "workflowId" = some (Json.str "unknown")) ∧
      (∃ o, r.getField "output" = some o ∧
        o.objKeys = ["message", "taskId", "workflowId"] ∧
        o.getField "workflowInstanceId" = none) := by
  have hres := resolveTask_obj kvs idkvs hid
  refine ⟨_, runWorker_ok_of_resolve _ _ hres, ?_, ?_, ?_, ?_,
    successResult_output_keys _⟩
  · intro v hv
    rw [successResult_taskId]
    exact congrArg some (dictGet_some _ _ _ _ hv)
  · intro hv
    rw [successResult_taskId]
    exact congrArg some (dictGet_none _ _ _ hv)
  · intro v hv
    rw [successResult_workflowId]
    exact congrArg some (dictGet_some _ _ _ _ hv)
  · intro hv
    rw [successResult_workflowId]
    exact congrArg some (dictGet_none _ _ _ hv)

theorem output_renames_workflow_instance_id_wit :
    ∃ r, runWorker (Except.ok (Json.obj
        [("taskId", Json.str "t1"), ("workflowInstanceId", Json.str "w1")])) = [r] ∧
      (∀ v, [("taskId", Json.str "t1"), ("workflowInstanceId", Json.str "w1")].lookup "taskId" = some v →
        outField r "taskId" = some v) ∧
      ([("taskId", Json.str "t1"), ("workflowInstanceId", Json.str "w1")].lookup "taskId" = none →
        outField r "taskId" = some (Json.str "unknown")) ∧
      (∀ v, [("taskId", Json.str "t1"), ("workflowInstanceId", Json.str "w1")].lookup "workflowInstanceId" = some v →
        outField r "workflowId" = some v) ∧
      ([("taskId", Json.str "t1"), ("workflowInstanceId", Json.str "w1")].lookup "workflowInstanceId" = none →
        outField r "workflowId" = some (Json.str "unknown")) ∧
      (∃ o, r.getField "output" = some o ∧
        o.objKeys = ["message", "taskId", "workflowId"] ∧
        o.getField "workflowInstanceId" = none) :=
  output_renames_workflow_instance_id
    [("taskId", Json.str "t1"), ("workflowInstanceId", Json.str "w1")] [] rfl

/-- C4: when `inputData` is present but is not an object, the `AttributeError`
raised by `input_data.get` is caught at the top level and a FAILED result is
printed whose `reason` is the error's textual description and whose `logs`
has exactly one entry describing the error. -/
theorem non_object_input_data_fails (kvs : List (String × Json)) (v : Json)
    (h1 : kvs.lookup "inputData" = some v) (h2 : v.isObj = false) :
    runWorker (Except.ok (Json.obj kvs)) = [failureResult (attrGetErr v)] ∧
    (failureResult (attrGetErr v)).getField "status" = some (Json.str "FAILED") ∧
    (failureResult (attrGetErr v)).getField "reason" = some (Json.str (attrGetErr v)) ∧
    (failureResult (attrGetErr v)).getField "logs" =
      some (Json.arr [Json.str ("Error processing task: " ++ attrGetErr v)]) ∧
    workerStdout (Except.ok (Json.obj kvs)) =
      [dumps (failureResult (attrGetErr v)) ++ "\n"] := by
  have hid : dictGet kvs "inputData" (Json.obj []) = v := dictGet_some _ _ _ _ h1
  have herr := resolveTask_bad_input_data kvs (by rw [hid]; exact h2)
  rw [hid] at herr
  have hrun := runWorker_ok_of_resolve_error _ _ herr
  exact ⟨hrun, failureResult_status _, failureResult_reason _, failureResult_logs _,
    by rw [workerStdout, hrun]; rfl⟩

theorem non_object_input_data_fails_wit :
    runWorker (Except.ok (Json.obj [("inputData", Json.str "not-an-object")])) =
      [failureResult (attrGetErr (Json.str "not-an-object"))] ∧
    (failureResult (attrGetErr (Json.str "not-an-object"))).getField "status" =
      some (Json.str "FAILED") ∧
    (failureResult (attrGetErr (Json.str "not-an-object"))).getField "reason" =
      some (Json.str (attrGetErr (Json.str "not-an-object"))) ∧
    (failureResult (attrGetErr (Json.str "not-an-object"))).getField "logs" =
      some (Json.arr [Json.str ("Error processing task: " ++
        attrGetErr (Json.str "not-an-object"))]) ∧
    workerStdout (Except.ok (Json.obj [("inputData", Json.str "not-an-object")])) =
      [dumps (failureResult (attrGetErr (Json.str "not-an-object"))) ++ "\n"] :=
  non_object_input_data_fails [("inputData", Json.str "not-an-object")]
    (Json.str "not-an-object") rfl rfl

/-- C5: every emitted result has exactly 3 log entries when its status is
`COMPLETED` — documenting the resolved task id and type, the resolved workflow
id, and the greeting generated for the resolved name — and exactly 1 log entry
when its status is `FAILED`. -/
theorem logs_cardinality (p : Except String Json) (r : Json)
    (h : runWorker p = [r]) :
    (r.getField "status" = some (Json.str "COMPLETED") →
      ∃ res, r = successResult res ∧
        r.getField "logs" = some (Json.arr [
          Json.str ("Processing task " ++ pyStr res.task_id ++ " of type " ++
            pyStr res.task_type),
          Json.str ("Workflow: " ++ pyStr res.workflow_id),
          Json.str ("Generated greeting for " ++ pyStr res.name)]) ∧
        (∃ l, r.getField "logs" = some (Json.arr l) ∧ l.length = 3)) ∧
    (r.getField "status" = some (Json.str "FAILED") →
      ∃ l, r.getField "logs" = some (Json.arr l) ∧ l.length = 1) := by
  rcases runWorker_shape p with ⟨task, res, hp, hres, hrw⟩ | ⟨e, hrw⟩
  · rw [h] at hrw
    have hr : r = successResult res := (List.cons.inj hrw).1
    constructor
    · intro _
      refine ⟨res, hr, by rw [hr]; exact successResult_logs res, ?_⟩
      exact ⟨[Json.str ("Processing task " ++ pyStr res.task_id ++ " of type " ++
          pyStr res.task_type),
        Json.str ("Workflow: " ++ pyStr res.workflow_id),
        Json.str ("Generated greeting for " ++ pyStr res.name)],
        by rw [hr]; exact successResult_logs res, rfl⟩
    · intro hst
      rw [hr, successResult_status] at hst
      injection hst with hst
      injection hst with hst
      exact absurd hst (by decide)
  · rw [h] at hrw
    have hr : r = failureResult e := (List.cons.inj hrw).1
    constructor
    · intro hst
      rw [hr, failureResult_status] at hst
      injection hst with hst
      injection hst with hst
      exact absurd hst (by decide)
    · intro _
      exact ⟨[Json.str ("Error processing task: " ++ e)],
        by rw [hr]; exact failureResult_logs e, rfl⟩

theorem logs_cardinality_wit :
    ((failureResult "boom").getField "status" = some (Json.str "COMPLETED") →
      ∃ res, failureResult "boom" = successResult res ∧
        (failureResult "boom").getField "logs" = some (Json.arr [
          Json.str ("Processing task " ++ pyStr res.task_id ++ " of type " ++
            pyStr res.task_type),
          Json.str ("Workflow: " ++ pyStr res.workflow_id),
          Json.str ("Generated greeting for " ++ pyStr res.name)]) ∧
        (∃ l, (failureResult "boom").getField "logs" = some (Json.arr l) ∧
          l.length = 3)) ∧
    ((failureResult "boom").getField "status" = some (Json.str "FAILED") →
      ∃ l, (failureResult "boom").getField "logs" = some (Json.arr l) ∧
        l.length = 1) :=
  logs_cardinality (Except.error "boom") (failureResult "boom") rfl

/-- C6: every stdin that parses to a JSON object makes the worker write exactly
one line to standard output, and that line is the `json.dumps` serialization of
a JSON object (the result dict) — never zero lines, never more than one. -/
theorem one_json_object_out (kvs : List (String × Json)) :
    ∃ r, Json.isObj r = true ∧
      workerStdout (Except.ok (Json.obj kvs)) = [dumps r ++ "\n"] := by
  rcases runWorker_shape (Except.ok (Json.obj kvs)) with ⟨task, res, hp, hres, hrw⟩ | ⟨e, hrw⟩
  · exact ⟨successResult res, rfl, by rw [workerStdout, hrw]; rfl⟩
  · exact ⟨failureResult e, rfl, by rw [workerStdout, hrw]; rfl⟩

/-- C7: the worker is a pure function of its stdin: two invocations whose
stdin contents (hence parse outcomes) are identical produce byte-identical
standard output. -/
theorem worker_deterministic (p q : Except String Json) (h : p = q) :
    workerStdout p = workerStdout q :=
  congrArg workerStdout h

theorem worker_deterministic_wit :
    workerStdout (Except.ok (Json.obj [])) = workerStdout (Except.ok (Json.obj [])) :=
  worker_deterministic (Except.ok (Json.obj [])) (Except.ok (Json.obj [])) rfl

/-- C8: for every stdin the worker terminates after exactly one write of a JSON
result line (it never ends without emitting a result), and it exits normally on
both the success and the failure path with an exit status that does not
distinguish the two. -/
theorem single_write_normal_termination (p : Except String Json) :
    (workerStdout p).length = 1 ∧ (∃ r, runWorker p = [r]) ∧
    workerExitCode p = 0 ∧ (∀ q, workerExitCode p = workerExitCode q) := by
  rcases runWorker_shape p with ⟨task, res, hp, hres, hrw⟩ | ⟨e, hrw⟩
  · exact ⟨by rw [workerStdout, hrw]; rfl, ⟨_, hrw⟩, rfl, fun q => rfl⟩
  · exact ⟨by rw [workerStdout, hrw]; rfl, ⟨_, hrw⟩, rfl, fun q => rfl⟩

/-- C9: for every stdin that is not a JSON object — a parse error, or a valid
JSON value of non-object type — the worker still emits exactly one result line,
with status `FAILED`, `reason` the error's textual description (the parse error
message itself when the parse step fails), and one log entry: the top-level
error boundary covers `json.load` too. -/
theorem non_object_stdin_fails (p : Except String Json)
    (h : (∃ e, p = Except.error e) ∨ ∃ v, p = Except.ok v ∧ v.isObj = false) :
    ∃ m, runWorker p = [failureResult m] ∧
      (∀ e, p = Except.error e → m = e) ∧
      (failureResult m).getField "status" = some (Json.str "FAILED") ∧
      (failureResult m).getField "reason" = some (Json.str m) ∧
      (failureResult m).getField "logs" =
        some (Json.arr [Json.str ("Error processing task: " ++ m)]) ∧
      workerStdout p = [dumps (failureResult m) ++ "\n"] := by
  rcases h with ⟨e, rfl⟩ | ⟨v, rfl, hv⟩
  · exact ⟨e, rfl, fun e' he' => Except.error.inj he',
      failureResult_status _, failureResult_reason _, failureResult_logs _, rfl⟩
  · have hrw := runWorker_not_obj v hv
    exact ⟨attrGetErr v, hrw, fun e' he' => Except.noConfusion he',
      failureResult_status _, failureResult_reason _, failureResult_logs _,
      by rw [workerStdout, hrw]; rfl⟩

theorem non_object_stdin_fails_wit :
    ∃ m, runWorker (Except.ok (Json.arr [Json.num 1])) = [failureResult m] ∧
      (∀ e, Except.ok (Json.arr [Json.num 1]) = Except.error e → m = e) ∧
      (failureResult m).getField "status" = some (Json.str "FAILED") ∧
      (failureResult m).getField "reason" = some (Json.str m) ∧
      (failureResult m).getField "logs" =
        some (Json.arr [Json.str ("Error processing task: " ++ m)]) ∧
      workerStdout (Except.ok (Json.arr [Json.num 1])) =
        [dumps (failureResult m) ++ "\n"] :=
  non_object_stdin_fails (Except.ok (Json.arr [Json.num 1]))
    (Or.inr ⟨Json.arr [Json.num 1], rfl, rfl⟩)

/-- C10: whenever `inputData` is absent or an object, the failure branch is
unreachable — the status is `COMPLETED` regardless of the JSON types of
`taskId`, `workflowInstanceId`, `taskType` and `inputData.name` — and the raw
(possibly non-string) values are passed through unvalidated into the output
fields and, stringified, into the log lines. -/
theorem arbitrary_field_types_accepted (kvs : List (String × Json))
    (h : kvs.lookup "inputData" = none ∨
      ∃ idkvs, kvs.lookup "inputData" = some (Json.obj idkvs)) :
    ∃ res, resolveTask (Json.obj kvs) = Except.ok res ∧
      runWorker (Except.ok (Json.obj kvs)) = [successResult res] ∧
      (successResult res).getField "status" = some (Json.str "COMPLETED") ∧
      res.task_id = dictGet kvs "taskId" (Json.str "unknown") ∧
      res.workflow_id = dictGet kvs "workflowInstanceId" (Json.str "unknown") ∧
      res.task_type = dictGet kvs "taskType" (Json.str "unknown") ∧
      outField (successResult res) "taskId" = some res.task_id ∧
      outField (successResult res) "workflowId" = some res.workflow_id ∧
      (successResult res).getField "logs" = some (Json.arr [
        Json.str ("Processing task " ++ pyStr res.task_id ++ " of type " ++
          pyStr res.task_type),
        Json.str ("Workflow: " ++ pyStr res.workflow_id),
        Json.str ("Generated greeting for " ++ pyStr res.name)]) := by
  have hid : ∃ idkvs, dictGet kvs "inputData" (Json.obj []) = Json.obj idkvs := by
    rcases h with h | ⟨idkvs, h⟩
    · exact ⟨[], dictGet_none _ _ _ h⟩
    · exact ⟨idkvs, dictGet_some _ _ _ _ h⟩
  obtain ⟨idkvs, hid⟩ := hid
  have hres := resolveTask_obj kvs idkvs hid
  exact ⟨_, hres, runWorker_ok_of_resolve _ _ hres, successResult_status _,
    rfl, rfl, rfl, successResult_taskId _, successResult_workflowId _,
    successResult_logs _⟩

theorem arbitrary_field_types_accepted_wit :
    ∃ res, resolveTask (Json.obj [("taskId", Json.num 5),
        ("workflowInstanceId", Json.null), ("taskType", Json.arr [Json.num 1]),
        ("inputData", Json.obj [("name", Json.bool true)])]) = Except.ok res ∧
      runWorker (Except.ok (Json.obj [("taskId", Json.num 5),
        ("workflowInstanceId", Json.null), ("taskType", Json.arr [Json.num 1]),
        ("inputData", Json.obj [("name", Json.bool true)])])) =
        [successResult res] ∧
      (successResult res).getField "status" = some (Json.str "COMPLETED") ∧
      res.task_id = dictGet [("taskId", Json.num 5),
        ("workflowInstanceId", Json.null), ("taskType", Json.arr [Json.num 1]),
        ("inputData", Json.obj [("name", Json.bool true)])] "taskId"
        (Json.str "unknown") ∧
      res.workflow_id = dictGet [("taskId", Json.num 5),
        ("workflowInstanceId", Json.null), ("taskType", Json.arr [Json.num 1]),
        ("inputData", Json.obj [("name", Json.bool true)])] "workflowInstanceId"
        (Json.str "unknown") ∧
      res.task_type = dictGet [("taskId", Json.num 5),
        ("workflowInstanceId", Json.null), ("taskType", Json.arr [Json.num 1]),
        ("inputData", Json.obj [("name", Json.bool true)])] "taskType"
        (Json.str "unknown") ∧
      outField (successResult res) "taskId" = some res.task_id ∧
      outField (successResult res) "workflowId" = some res.workflow_id ∧
      (successResult res).getField "logs" = some (Json.arr [
        Json.str ("Processing task " ++ pyStr res.task_id ++ " of type " ++
          pyStr res.task_type),
        Json.str ("Workflow: " ++ pyStr res.workflow_id),
        Json.str ("Generated greeting for " ++ pyStr res.name)]) :=
  arbitrary_field_types_accepted [("taskId", Json.num 5),
    ("workflowInstanceId", Json.null), ("taskType", Json.arr [Json.num 1]),
    ("inputData", Json.obj [("name", Json.bool true)])]
    (Or.inr ⟨[("name", Json.bool true)], rfl⟩)
